import Mathlib

/-!
Shallow embedding of `src/A4/geoFunctions.py` (EVI time-series computation
over a remote geospatial backend).

Modelling conventions:
* A raster `Image` is a list of named bands together with its
  `system:time_start` capture timestamp (milliseconds since the epoch,
  a `Nat`).  A pixel is `Option ℚ`: `none` is a masked / no-data pixel.
* Calendar-date strings (`YYYY-MM-DD`) are represented by the millisecond
  timestamp they parse to; formatting a timestamp as YYYY-MM-dd and
  re-parsing it (as `calculate_time_series_EVI` does through
  `ee.Date(...).format` / `pd.to_datetime`) truncates it to its UTC day
  number, i.e. `t / msPerDay`.
* The external Earth Engine backend is opaque: a `Backend` structure
  supplies collection lookup by name, the spatial-intersection test used
  by `filterBounds`, the five collection reducers, and the per-region
  spatial mean returned by `reduceRegion(...).get(band)` (an `Option ℚ`,
  `none` when the remote reduction yields no data).
* Python `raise ValueError(msg)` in the two validation branches becomes
  `Except.error` with a `GeoError` payload carrying the list of valid
  names stated in the message.
-/

/-- One named band of a raster image; a pixel is `none` when masked. -/
structure Band where
  name : String
  pixels : List (Option ℚ)
deriving Repr, DecidableEq

/-- An Earth Engine image: named bands plus its `system:time_start`
capture timestamp in milliseconds since the epoch. -/
structure Image where
  bands : List Band
  timeStart : Nat
deriving Repr, DecidableEq

/-- The method `image.select name`: the image restricted to the bands named `name`. -/
def Image.select (img : Image) (bandName : String) : Image :=
  { img with bands := img.bands.filter (fun b => b.name == bandName) }

/-- The method `image.rename newName`: every band of the image renamed
(the source always calls it on a single-band expression result). -/
def Image.rename (img : Image) (newName : String) : Image :=
  { img with bands := img.bands.map (fun b => { b with name := newName }) }

/-- Pixels of the image's (first) band; the images fed to the EVI
expression are single-band results of `select_bands`. -/
def Image.bandPixels (img : Image) : List (Option ℚ) :=
  match img.bands with
  | [] => []
  | b :: _ => b.pixels

/-- An `ee.ImageCollection`: an ordered list of images, in the order the
backend serves them. -/
structure ImageCollection where
  images : List Image
deriving Repr, DecidableEq

/-- An `ee.Geometry` area of interest (`ee.Geometry.Rectangle([...])`):
its defining coordinates, otherwise opaque. -/
structure Geometry where
  coords : List ℚ
deriving Repr, DecidableEq

/-- The error taxonomy of the script's two validation branches:
each Python `ValueError` message names the list of valid inputs. -/
inductive GeoError where
  | unsupportedIndexError (available : List String)
  | unsupportedAggregationError (available : List String)
deriving Repr, DecidableEq

/-- The method `filterDate`: keeps images whose timestamp
lies in the half-open range `[startT, endT)` (Earth Engine semantics). -/
def ImageCollection.filterDate (c : ImageCollection) (startT endT : Nat) :
    ImageCollection :=
  ⟨c.images.filter (fun img => startT ≤ img.timeStart && img.timeStart < endT)⟩

/-- The opaque external geospatial backend: named collections, the
spatial-intersection test behind `filterBounds`, the five collection
reducers, and the scalar produced by
the call chain reduceRegion with the mean reducer followed by get on the band
(`none` when the remote reduction yields no data). -/
structure Backend where
  collections : String → ImageCollection
  intersects : Image → Geometry → Bool
  meanReduce : ImageCollection → Image
  medianReduce : ImageCollection → Image
  sumReduce : ImageCollection → Image
  minReduce : ImageCollection → Image
  maxReduce : ImageCollection → Image
  reduceRegionMean : Image → Geometry → Nat → String → Option ℚ

/-- The method `filterBounds`: keeps images intersecting the
geometry, the test being the backend's. -/
def ImageCollection.filterBounds (be : Backend) (c : ImageCollection)
    (aoi : Geometry) : ImageCollection :=
  ⟨c.images.filter (fun img => be.intersects img aoi)⟩

/-- The `band_mapping` dictionary of `select_bands`. -/
def band_mapping : List (String × String) :=
  [("RED", "B4"), ("GREEN", "B3"), ("BLUE", "B2"), ("NIR", "B8")]

/-- The function `select_bands`: looks `index_name` up in
`band_mapping` and selects the mapped physical band, else raises a
ValueError listing the valid names RED, GREEN, BLUE, NIR. -/
def select_bands (image : Image) (index_name : String) :
    Except GeoError Image :=
  match band_mapping.lookup index_name with
  | some phys => .ok (image.select phys)
  | none => .error (.unsupportedIndexError ["RED", "GREEN", "BLUE", "NIR"])

/-- The function `aggregate_image_collection`: filters the named collection
to the date range and dispatches on the method name, else raises a
ValueError listing the valid methods mean, median, sum, min, max. -/
def aggregate_image_collection (be : Backend) (collection_name : String)
    (start_date end_date : Nat) (aggregation_method : String) :
    Except GeoError Image :=
  let collection := (be.collections collection_name).filterDate start_date end_date
  if aggregation_method = "mean" then .ok (be.meanReduce collection)
  else if aggregation_method = "median" then .ok (be.medianReduce collection)
  else if aggregation_method = "sum" then .ok (be.sumReduce collection)
  else if aggregation_method = "min" then .ok (be.minReduce collection)
  else if aggregation_method = "max" then .ok (be.maxReduce collection)
  else .error (.unsupportedAggregationError ["mean", "median", "sum", "min", "max"])

/-- Pointwise evaluation of the expression
2.5 * ((NIR - RED) / (NIR + 6 * RED - 7.5 * BLUE + 1)) : masked when an
input pixel is masked or the denominator is zero (the engine yields a
no-data pixel there, not an error). -/
def eviExpr (b r n : Option ℚ) : Option ℚ :=
  match b, r, n with
  | some b, some r, some n =>
      let denom := n + 6 * r - (15 / 2 : ℚ) * b + 1
      if denom = 0 then none else some ((5 / 2 : ℚ) * ((n - r) / denom))
  | _, _, _ => none

/-- Pixel-aligned ternary zip used by the engine's per-pixel expression
evaluation over the three input bands. -/
def zipPixels (f : Option ℚ → Option ℚ → Option ℚ → Option ℚ) :
    List (Option ℚ) → List (Option ℚ) → List (Option ℚ) → List (Option ℚ)
  | a :: as, b :: bs, c :: cs => f a b c :: zipPixels f as bs cs
  | _, _, _ => []

/-- The function `calculateEVI`: evaluates the fixed EVI
expression per pixel over the three variable images and renames the
single resulting band to EVI.  The receiver `image` hosts the
expression but contributes no band reference; the expression result
carries no `system:time_start` of its own (the caller re-sets it). -/
def calculateEVI (image blue red nir : Image) : Image :=
  let evi : Image :=
    { bands := [{ name := "expression",
                  pixels := zipPixels eviExpr blue.bandPixels red.bandPixels
                    nir.bandPixels }],
      timeStart := 0 }
  evi.rename "EVI"

/-- The inner `calc_evi(image)` of `calculate_time_series_EVI`: selects
BLUE/RED/NIR via `select_bands`, computes EVI, and copies the source
image's `system:time_start` onto the result. -/
def calc_evi (image : Image) : Except GeoError Image := do
  let blue_band ← select_bands image "BLUE"
  let red_band ← select_bands image "RED"
  let nir_band ← select_bands image "NIR"
  let evi := calculateEVI image blue_band red_band nir_band
  return { evi with timeStart := image.timeStart }

/-- Milliseconds per UTC day: formatting a timestamp as YYYY-MM-dd followed
by pandas date parsing truncates a millisecond timestamp to its day. -/
def msPerDay : Nat := 86400000

/-- The feature built by the inner `reduce_region(image)`: its `date`
property (the capture date, as the parsed YYYY-MM-dd string, i.e. the
UTC day number) and its `EVI` property (the spatial mean over the AOI at
scale 30, `none` when the remote reduction yielded no data). -/
structure Feature where
  date : Nat
  evi : Option ℚ
deriving Repr, DecidableEq

/-- The inner `reduce_region(image)` of `calculate_time_series_EVI`. -/
def reduce_region (be : Backend) (aoi : Geometry) (image : Image) : Feature :=
  { date := image.timeStart / msPerDay,
    evi := be.reduceRegionMean image aoi 30 "EVI" }

/-- The function `calculate_time_series_EVI`: filters the named
collection by date range and AOI, maps
`calc_evi` then `reduce_region` over it, and assembles the `(Date, EVI)`
table.  Building the DataFrame and setting Date as index keeps the rows in the
order the backend returned the features, so the table is the date/value
zip in feature order. -/
def calculate_time_series_EVI (be : Backend) (collection_name : String)
    (start_date end_date : Nat) (aoi : Geometry) :
    Except GeoError (List (Nat × Option ℚ)) := do
  let collection := ImageCollection.filterBounds be
    ((be.collections collection_name).filterDate start_date end_date) aoi
  let evi_collection ← collection.images.mapM calc_evi
  let features := evi_collection.map (reduce_region be aoi)
  let dates := features.map Feature.date
  let values := features.map Feature.evi
  return dates.zip values

/-- A table is sorted ascending by date when each row's date is at most
the next row's. -/
def sortedByDate : List (Nat × Option ℚ) → Bool
  | [] => true
  | [_] => true
  | a :: b :: rest => a.1 ≤ b.1 && sortedByDate (b :: rest)

/-- A list of images is in chronological order of capture timestamps. -/
def chronoSorted : List Image → Bool
  | [] => true
  | [_] => true
  | a :: b :: rest => a.timeStart ≤ b.timeStart && chronoSorted (b :: rest)

/-- The date- and region-filtered image list that
`calculate_time_series_EVI` maps over. -/
def filtered_images (be : Backend) (collection_name : String)
    (start_date end_date : Nat) (aoi : Geometry) : List Image :=
  (ImageCollection.filterBounds be
    ((be.collections collection_name).filterDate start_date end_date) aoi).images

/-- The image `calc_evi` produces for a given source image (it never
fails, since it selects only the valid logical names BLUE, RED, NIR). -/
def evi_image (img : Image) : Image :=
  { calculateEVI img (img.select "B2") (img.select "B4") (img.select "B8")
      with timeStart := img.timeStart }

/-- A sample image carrying the three physical bands the pipeline reads,
with constant pixel values, captured at millisecond timestamp `t`. -/
def imgAt (t : Nat) : Image :=
  ⟨[⟨"B2", [some 0]⟩, ⟨"B4", [some 0]⟩, ⟨"B8", [some 1]⟩], t⟩

/-- A concrete backend whose collection serves two images in descending
capture order (day 2 before day 1); every spatial mean is 0. -/
def descBackend : Backend :=
  { collections := fun _ => ⟨[imgAt (2 * msPerDay), imgAt msPerDay]⟩,
    intersects := fun _ _ => true,
    meanReduce := fun _ => imgAt 0,
    medianReduce := fun _ => imgAt 0,
    sumReduce := fun _ => imgAt 0,
    minReduce := fun _ => imgAt 0,
    maxReduce := fun _ => imgAt 0,
    reduceRegionMean := fun _ _ _ _ => some 0 }

/-- The same backend with the two images served in ascending order. -/
def ascBackend : Backend :=
  { descBackend with
    collections := fun _ => ⟨[imgAt msPerDay, imgAt (2 * msPerDay)]⟩ }

/-- A backend serving one image for which the remote spatial reduction
yields no data. -/
def nullBackend : Backend :=
  { descBackend with
    collections := fun _ => ⟨[imgAt msPerDay]⟩,
    reduceRegionMean := fun _ _ _ _ => none }

/-- A copy of `descBackend` differing only in an aggregation reducer the
time-series path never consults. -/
def descBackendVariant : Backend :=
  { descBackend with meanReduce := fun _ => imgAt 42 }

/-- A single-band blue input for exercising the EVI formula. -/
def blueSample : Image := ⟨[⟨"B2", [some 0]⟩], 0⟩

/-- A single-band red input for exercising the EVI formula. -/
def redSample : Image := ⟨[⟨"B4", [some (1 / 2)]⟩], 0⟩

/-- A single-band near-infrared input for exercising the EVI formula. -/
def nirSample : Image := ⟨[⟨"B8", [some 1]⟩], 0⟩

theorem calc_evi_ok (img : Image) : calc_evi img = .ok (evi_image img) := rfl

theorem evi_image_timeStart (img : Image) :
    (evi_image img).timeStart = img.timeStart := rfl

theorem mapM_calc_evi (l : List Image) :
    l.mapM calc_evi = Except.ok (l.map evi_image) := by
  induction l with
  | nil => rfl
  | cons h t ih =>
    rw [List.mapM_cons, calc_evi_ok, ih]
    rfl

/-- Closed form of the whole extractor: each filtered image contributes,
in backend order, the row made of its UTC day number and the spatial
mean of its EVI image over the AOI at scale 30. -/
theorem calculate_time_series_EVI_eq (be : Backend) (n : String)
    (s e : Nat) (aoi : Geometry) :
    calculate_time_series_EVI be n s e aoi =
      .ok ((filtered_images be n s e aoi).map (fun img =>
        (img.timeStart / msPerDay,
         be.reduceRegionMean (evi_image img) aoi 30 "EVI"))) := by
  unfold calculate_time_series_EVI
  simp only [mapM_calc_evi, filtered_images]
  simp [List.zip_map', List.map_map, reduce_region, Function.comp,
    evi_image_timeStart]

theorem zipPixels_getElem (f : Option ℚ → Option ℚ → Option ℚ → Option ℚ)
    (as bs cs : List (Option ℚ)) (i : Nat) (a b c : Option ℚ)
    (ha : as[i]? = some a) (hb : bs[i]? = some b) (hc : cs[i]? = some c) :
    (zipPixels f as bs cs)[i]? = some (f a b c) := by
  induction as generalizing bs cs i with
  | nil => simp at ha
  | cons a0 as ih =>
    cases bs with
    | nil => simp at hb
    | cons b0 bs =>
      cases cs with
      | nil => simp at hc
      | cons c0 cs =>
        cases i with
        | zero =>
          simp at ha hb hc
          simp [zipPixels, ha, hb, hc]
        | succ j =>
          simp at ha hb hc
          simpa [zipPixels] using ih bs cs j ha hb hc

theorem band_mapping_lookup_none (name : String)
    (h : name ∉ ["RED", "GREEN", "BLUE", "NIR"]) :
    band_mapping.lookup name = none := by
  simp only [List.mem_cons, List.not_mem_nil, or_false, not_or] at h
  obtain ⟨h1, h2, h3, h4⟩ := h
  have e1 : (name == "RED") = false := by simp [h1]
  have e2 : (name == "GREEN") = false := by simp [h2]
  have e3 : (name == "BLUE") = false := by simp [h3]
  have e4 : (name == "NIR") = false := by simp [h4]
  simp [band_mapping, List.lookup, e1, e2, e3, e4]

/-- Composing a monotone day truncation with a row constructor preserves
chronological sortedness. -/
theorem sortedByDate_map (g : Image → Option ℚ) (l : List Image)
    (h : chronoSorted l = true) :
    sortedByDate (l.map (fun img => (img.timeStart / msPerDay, g img)))
      = true := by
  induction l with
  | nil => rfl
  | cons a t ih =>
    cases t with
    | nil => rfl
    | cons b r =>
      simp only [chronoSorted, Bool.and_eq_true, decide_eq_true_eq] at h
      simp only [List.map_cons, sortedByDate, Bool.and_eq_true,
        decide_eq_true_eq]
      exact ⟨Nat.div_le_div_right h.1, ih h.2⟩

/-- C6: for every logical band name in RED, GREEN, BLUE, NIR, the Band
Selector returns a new image restricted to exactly the physical band
given by the fixed mapping RED to B4, GREEN to B3, BLUE to B2, NIR to B8:
the result is the input image with its band list filtered to the mapped
physical name (so every surviving band carries that name) and its
timestamp untouched; the input image itself is unmodified (the embedding
is pure and the result is a fresh image). -/
theorem select_bands_valid_band_mapping (img : Image) :
    select_bands img "RED" = .ok (img.select "B4") ∧
    select_bands img "GREEN" = .ok (img.select "B3") ∧
    select_bands img "BLUE" = .ok (img.select "B2") ∧
    select_bands img "NIR" = .ok (img.select "B8") ∧
    (∀ phys, (img.select phys).bands
        = img.bands.filter (fun b => b.name == phys)) ∧
    (∀ phys, (img.select phys).bands.all (fun b => b.name == phys) = true) ∧
    (∀ phys, (img.select phys).timeStart = img.timeStart) := by
  refine ⟨rfl, rfl, rfl, rfl, fun phys => rfl, fun phys => ?_,
    fun phys => rfl⟩
  simp only [Image.select, List.all_eq_true]
  intro b hb
  exact (List.mem_filter.mp hb).2

/-- C3: for every logical band name outside RED, GREEN, BLUE, NIR, the
Band Selector fails with the unsupported-index error whose payload lists
the valid names RED, GREEN, BLUE, NIR, and it does not return an
image. -/
theorem select_bands_unsupported_name_error (img : Image) (name : String)
    (h : name ∉ ["RED", "GREEN", "BLUE", "NIR"]) :
    select_bands img name
      = .error (.unsupportedIndexError ["RED", "GREEN", "BLUE", "NIR"]) ∧
    ∀ out, select_bands img name ≠ .ok out := by
  have hl := band_mapping_lookup_none name h
  constructor
  · simp [select_bands, hl]
  · intro out
    simp [select_bands, hl]

/-- Witness for C3: the Band Selector called with the name PURPLE on a
concrete image. -/
theorem select_bands_unsupported_name_error_witness :
    select_bands (imgAt 0) "PURPLE"
      = .error (.unsupportedIndexError ["RED", "GREEN", "BLUE", "NIR"]) ∧
    select_bands (imgAt 0) "PURPLE" ≠ .ok (imgAt 0) :=
  ⟨(select_bands_unsupported_name_error (imgAt 0) "PURPLE" (by decide)).1,
   (select_bands_unsupported_name_error (imgAt 0) "PURPLE"
     (by decide)).2 (imgAt 0)⟩

/-- C10: band-name matching in the Band Selector is exact and
case-sensitive: for any name that is not character-for-character one of
the four uppercase strings (for example the lowercase red), the function
fails with its unsupported-index error without performing any operation
on the image — the outcome does not depend on the image at all, so on
failure the input image is never touched. -/
theorem select_bands_case_sensitive_no_touch (name : String)
    (h : name ∉ ["RED", "GREEN", "BLUE", "NIR"]) :
    (∀ img₁ img₂ : Image, select_bands img₁ name = select_bands img₂ name) ∧
    (∀ img : Image, select_bands img name
      = .error (.unsupportedIndexError ["RED", "GREEN", "BLUE", "NIR"])) ∧
    (∀ img out : Image, select_bands img name ≠ .ok out) := by
  have hl := band_mapping_lookup_none name h
  refine ⟨fun img₁ img₂ => ?_, fun img => ?_, fun img out => ?_⟩
  · simp [select_bands, hl]
  · simp [select_bands, hl]
  · simp [select_bands, hl]

/-- Witness for C10: the lowercase name red fails identically on two
different concrete images and returns no image. -/
theorem select_bands_case_sensitive_no_touch_witness :
    (select_bands (imgAt 0) "red" = select_bands (imgAt 77) "red") ∧
    select_bands (imgAt 0) "red"
      = .error (.unsupportedIndexError ["RED", "GREEN", "BLUE", "NIR"]) ∧
    select_bands (imgAt 0) "red" ≠ .ok (imgAt 0) :=
  ⟨(select_bands_case_sensitive_no_touch "red" (by decide)).1
      (imgAt 0) (imgAt 77),
   (select_bands_case_sensitive_no_touch "red" (by decide)).2.1 (imgAt 0),
   (select_bands_case_sensitive_no_touch "red" (by decide)).2.2
      (imgAt 0) (imgAt 0)⟩

/-- C2: for every image and every pixel where the denominator
NIR + 6 RED - 7.5 BLUE + 1 is non-zero, the Index Calculator produces
2.5 (NIR - RED) / (NIR + 6 RED - 7.5 BLUE + 1) at that pixel, and the
single band of the output image is named EVI regardless of the names of
the three input bands. -/
theorem calculateEVI_pixel_formula (image blue red nir : Image) :
    (calculateEVI image blue red nir).bands.map Band.name = ["EVI"] ∧
    ∀ (i : Nat) (b r n : ℚ), blue.bandPixels[i]? = some (some b) →
      red.bandPixels[i]? = some (some r) →
      nir.bandPixels[i]? = some (some n) →
      n + 6 * r - (15 / 2 : ℚ) * b + 1 ≠ 0 →
      (calculateEVI image blue red nir).bandPixels[i]?
        = some (some ((5 / 2 : ℚ) *
            ((n - r) / (n + 6 * r - (15 / 2 : ℚ) * b + 1)))) := by
  constructor
  · rfl
  · intro i b r n hb hr hn hden
    have hz := zipPixels_getElem eviExpr blue.bandPixels red.bandPixels
      nir.bandPixels i (some b) (some r) (some n) hb hr hn
    have hpix : (calculateEVI image blue red nir).bandPixels
        = zipPixels eviExpr blue.bandPixels red.bandPixels nir.bandPixels :=
      rfl
    rw [hpix, hz]
    simp [eviExpr, hden]

/-- Witness for C2: concrete single-band inputs with BLUE 0, RED 1/2,
NIR 1 at pixel 0, where the denominator is 5. -/
theorem calculateEVI_pixel_formula_witness :
    (calculateEVI (imgAt 0) blueSample redSample nirSample).bands.map
        Band.name = ["EVI"] ∧
    (calculateEVI (imgAt 0) blueSample redSample nirSample).bandPixels[0]?
      = some (some ((5 / 2 : ℚ) *
          ((1 - 1 / 2) / (1 + 6 * (1 / 2) - (15 / 2 : ℚ) * 0 + 1)))) :=
  ⟨(calculateEVI_pixel_formula (imgAt 0) blueSample redSample nirSample).1,
   (calculateEVI_pixel_formula (imgAt 0) blueSample redSample nirSample).2
     0 0 (1 / 2) 1 rfl rfl rfl (by norm_num)⟩

/-- C4: for every aggregation method name outside mean, median, sum,
min, max, the Collection Aggregator fails with the
unsupported-aggregation error naming the valid set, and it does not
return an image. -/
theorem aggregate_unknown_method_error (be : Backend) (n : String)
    (s e : Nat) (method : String)
    (h : method ∉ ["mean", "median", "sum", "min", "max"]) :
    aggregate_image_collection be n s e method
      = .error (.unsupportedAggregationError
          ["mean", "median", "sum", "min", "max"]) ∧
    ∀ img, aggregate_image_collection be n s e method ≠ .ok img := by
  simp only [List.mem_cons, List.not_mem_nil, or_false, not_or] at h
  obtain ⟨h1, h2, h3, h4, h5⟩ := h
  constructor
  · simp [aggregate_image_collection, h1, h2, h3, h4, h5]
  · intro img
    simp [aggregate_image_collection, h1, h2, h3, h4, h5]

/-- Witness for C4: the Collection Aggregator called with the method
average on a concrete backend. -/
theorem aggregate_unknown_method_error_witness :
    aggregate_image_collection descBackend "COPERNICUS/S2" 0 1 "average"
      = .error (.unsupportedAggregationError
          ["mean", "median", "sum", "min", "max"]) ∧
    aggregate_image_collection descBackend "COPERNICUS/S2" 0 1 "average"
      ≠ .ok (imgAt 0) :=
  ⟨(aggregate_unknown_method_error descBackend "COPERNICUS/S2" 0 1
      "average" (by decide)).1,
   (aggregate_unknown_method_error descBackend "COPERNICUS/S2" 0 1
      "average" (by decide)).2 (imgAt 0)⟩

/-- C7: for every method name among mean, median, sum, min, max, the
Collection Aggregator first filters the named collection to the
half-open date range and then returns exactly the corresponding
backend reduction of the filtered collection. -/
theorem aggregate_valid_method_dispatch (be : Backend) (n : String)
    (s e : Nat) :
    ((be.collections n).filterDate s e
       = ⟨(be.collections n).images.filter
           (fun img => s ≤ img.timeStart && img.timeStart < e)⟩) ∧
    aggregate_image_collection be n s e "mean"
      = .ok (be.meanReduce ((be.collections n).filterDate s e)) ∧
    aggregate_image_collection be n s e "median"
      = .ok (be.medianReduce ((be.collections n).filterDate s e)) ∧
    aggregate_image_collection be n s e "sum"
      = .ok (be.sumReduce ((be.collections n).filterDate s e)) ∧
    aggregate_image_collection be n s e "min"
      = .ok (be.minReduce ((be.collections n).filterDate s e)) ∧
    aggregate_image_collection be n s e "max"
      = .ok (be.maxReduce ((be.collections n).filterDate s e)) :=
  ⟨rfl, rfl, rfl, rfl, rfl, rfl⟩

/-- C1 counterexample: with a concrete backend whose collection serves
the image of day 2 before the image of day 1, the Time Series Extractor
returns the rows in that backend order — day 2 first — so the output is
not sorted ascending by date: building the DataFrame and setting the
Date column as index does not sort. -/
theorem time_series_not_sorted_on_descending_backend :
    calculate_time_series_EVI descBackend "COPERNICUS/S2" 0 (3 * msPerDay)
        ⟨[]⟩
      = .ok [(2, some 0), (1, some 0)] ∧
    sortedByDate [(2, some 0), (1, some 0)] = false :=
  ⟨rfl, rfl⟩

/-- C1 (amended): the rows of the returned time series carry the
capture dates of the filtered images in exactly the order the backend
serves them; consequently the table is sorted ascending by date
whenever the backend serves the filtered images in chronological
order (as Earth Engine collections are by default), but not
regardless of that order. -/
theorem time_series_sorted_of_chronological_backend (be : Backend)
    (n : String) (s e : Nat) (aoi : Geometry)
    (h : chronoSorted (filtered_images be n s e aoi) = true) :
    ∃ rows, calculate_time_series_EVI be n s e aoi = .ok rows ∧
      rows.map Prod.fst = (filtered_images be n s e aoi).map
        (fun img => img.timeStart / msPerDay) ∧
      sortedByDate rows = true := by
  refine ⟨_, calculate_time_series_EVI_eq be n s e aoi, ?_, ?_⟩
  · simp
  · exact sortedByDate_map _ _ h

/-- Witness for the amended C1: the ascending two-image backend yields
a table sorted ascending by date. -/
theorem time_series_sorted_witness :
    ∃ rows, calculate_time_series_EVI ascBackend "COPERNICUS/S2" 0
        (3 * msPerDay) ⟨[]⟩ = .ok rows ∧
      rows.map Prod.fst
        = (filtered_images ascBackend "COPERNICUS/S2" 0 (3 * msPerDay)
            ⟨[]⟩).map (fun img => img.timeStart / msPerDay) ∧
      sortedByDate rows = true :=
  time_series_sorted_of_chronological_backend ascBackend "COPERNICUS/S2"
    0 (3 * msPerDay) ⟨[]⟩ (by decide)

/-- C5: if the remote spatial reduction yields no data for the image at
position k of the filtered collection, the Time Series Extractor still
returns a table with one row per filtered image, and row k carries that
image's date together with the missing value — the row is neither
dropped nor its value substituted by another number. -/
theorem time_series_null_value_carried_through (be : Backend)
    (n : String) (s e : Nat) (aoi : Geometry) (k : Nat) (img : Image)
    (hk : (filtered_images be n s e aoi)[k]? = some img)
    (hnull : be.reduceRegionMean (evi_image img) aoi 30 "EVI" = none) :
    ∃ rows, calculate_time_series_EVI be n s e aoi = .ok rows ∧
      rows.length = (filtered_images be n s e aoi).length ∧
      rows[k]? = some (img.timeStart / msPerDay, none) := by
  refine ⟨_, calculate_time_series_EVI_eq be n s e aoi, by simp, ?_⟩
  rw [List.getElem?_map, hk]
  simp [hnull]

/-- Witness for C5: a one-image backend whose spatial reduction returns
no data; the single row survives with a missing value. -/
theorem time_series_null_value_witness :
    ∃ rows, calculate_time_series_EVI nullBackend "COPERNICUS/S2" 0
        (3 * msPerDay) ⟨[]⟩ = .ok rows ∧
      rows.length = (filtered_images nullBackend "COPERNICUS/S2" 0
        (3 * msPerDay) ⟨[]⟩).length ∧
      rows[0]? = some ((imgAt msPerDay).timeStart / msPerDay, none) :=
  time_series_null_value_carried_through nullBackend "COPERNICUS/S2" 0
    (3 * msPerDay) ⟨[]⟩ 0 (imgAt msPerDay) rfl rfl

/-- C8: the number of rows of the returned table equals the number of
images in the date- and region-filtered collection — exactly one
(date, EVI) pair per image, each image contributing its own row with
its own capture date, with no deduplication or merging of equal
dates. -/
theorem time_series_one_row_per_image (be : Backend) (n : String)
    (s e : Nat) (aoi : Geometry) :
    ∃ rows, calculate_time_series_EVI be n s e aoi = .ok rows ∧
      rows.length = (filtered_images be n s e aoi).length ∧
      rows.map Prod.fst = (filtered_images be n s e aoi).map
        (fun img => img.timeStart / msPerDay) := by
  refine ⟨_, calculate_time_series_EVI_eq be n s e aoi, ?_, ?_⟩
  · simp
  · simp

/-- C9: the Time Series Extractor is deterministic with respect to its
inputs and the backend dataset: any two backends that agree on the
named collection, the spatial-intersection test, and the per-region
reduction results — in particular the very same backend twice — yield
identical output tables for identical arguments, whatever their
unrelated components (such as the aggregation reducers) do. -/
theorem time_series_deterministic (be₁ be₂ : Backend) (n : String)
    (s e : Nat) (aoi : Geometry)
    (hcol : be₁.collections n = be₂.collections n)
    (hint : be₁.intersects = be₂.intersects)
    (hred : be₁.reduceRegionMean = be₂.reduceRegionMean) :
    calculate_time_series_EVI be₁ n s e aoi
      = calculate_time_series_EVI be₂ n s e aoi := by
  rw [calculate_time_series_EVI_eq, calculate_time_series_EVI_eq]
  have hfi : filtered_images be₁ n s e aoi
      = filtered_images be₂ n s e aoi := by
    simp [filtered_images, ImageCollection.filterBounds, hcol, hint]
  rw [hfi, hred]

/-- Witness for C9: two concrete backends differing only in their mean
reducer produce the same time series. -/
theorem time_series_deterministic_witness :
    calculate_time_series_EVI descBackend "COPERNICUS/S2" 0
        (3 * msPerDay) ⟨[]⟩
      = calculate_time_series_EVI descBackendVariant "COPERNICUS/S2" 0
        (3 * msPerDay) ⟨[]⟩ :=
  time_series_deterministic descBackend descBackendVariant
    "COPERNICUS/S2" 0 (3 * msPerDay) ⟨[]⟩ rfl rfl rfl
